import Mathlib

/-
Verification of src/ts/input/tex/Configuration.ts (MathJax TeX input
configuration layer): the configuration registry, entry construction
(Configuration.create and the private constructor), the merge step
(ParserConfiguration.append), dynamic registration
(ParserConfiguration.register) and parser-configuration construction
(the ParserConfiguration constructor).

JavaScript runtime values that the code stores and inspects (functions,
numbers, strings, null/undefined, arrays) are embedded as the inductive
type JSVal; null and undefined are conflated (the code only ever tests
them for truthiness).  Machinery that lives outside this file
(FunctionList, PrioritizedList, defaultOptions from util/) is modelled
from the spec where needed; each such definition says so in its doc
comment.
-/

namespace MathJax

/-- A JavaScript runtime value as far as Configuration.ts inspects one:
functions are opaque and identified by a tag, arrays are lists of values,
null and undefined are conflated into one constructor. -/
inductive JSVal where
  | null : JSVal
  | num : Nat → JSVal
  | str : String → JSVal
  | fn : String → JSVal
  | arr : List JSVal → JSVal

/-- JavaScript truthiness of a JSVal (arrays and functions are truthy,
null/undefined are falsy, 0 and the empty string are falsy). -/
def jsTruthy : JSVal → Bool
  | .null => false
  | .num n => n != 0
  | .str s => s != ""
  | .fn _ => true
  | .arr _ => true

/-- Array.isArray. -/
def jsIsArray : JSVal → Bool
  | .arr _ => true
  | _ => false

/-- Whether a value can be invoked as a function; invoking anything else
throws a TypeError at runtime. -/
def jsIsCallable : JSVal → Bool
  | .fn _ => true
  | _ => false

/-- Indexing v[i]: reading an index of anything but an array, or out of
bounds, yields undefined. -/
def jsIndex : JSVal → Nat → JSVal
  | .arr l, i => l.getD i .null
  | _, _ => .null

/-- The JavaScript expression e || null for an optional argument e:
an absent or falsy value becomes null, a truthy value is kept. -/
def jsOrNull : Option JSVal → JSVal
  | none => .null
  | some v => if jsTruthy v then v else .null

/-- The JavaScript expression p || 5 for the optional numeric priority p
(Configuration.ts line 108): absent or 0 (the falsy number) becomes 5. -/
def jsOrPriority : Option Nat → Nat
  | none => 5
  | some n => if n = 0 then 5 else n

/-- HandlerType (imported from MapHandler.ts): the four fixed handler
categories.  The source category named m-a-c-r-o is rendered macroH. -/
inductive HandlerType where
  | character : HandlerType
  | delimiter : HandlerType
  | macroH : HandlerType
  | environment : HandlerType
deriving DecidableEq

/-- HandlerConfig (line 38): a partial mapping from handler categories to
lists of symbol-map names, as supplied by a package author. -/
structure HandlerConfig where
  character : Option (List String) := none
  delimiter : Option (List String) := none
  macroH : Option (List String) := none
  environment : Option (List String) := none

/-- Reading one category of a caller-supplied HandlerConfig. -/
def HandlerConfig.get (h : HandlerConfig) : HandlerType → Option (List String)
  | .character => h.character
  | .delimiter => h.delimiter
  | .macroH => h.macroH
  | .environment => h.environment

/-- A total handler mapping: the shape of Configuration.handler after the
constructor's Object.assign with the four empty defaults (lines 248-249),
and of the merged handler lists of a parser configuration. -/
structure HandlerMap where
  character : List String := []
  delimiter : List String := []
  macroH : List String := []
  environment : List String := []

/-- Reading one category of a total handler map. -/
def HandlerMap.get (h : HandlerMap) : HandlerType → List String
  | .character => h.character
  | .delimiter => h.delimiter
  | .macroH => h.macroH
  | .environment => h.environment

/-- Writing one category of a total handler map. -/
def HandlerMap.set (h : HandlerMap) : HandlerType → List String → HandlerMap
  | .character, l => { h with character := l }
  | .delimiter, l => { h with delimiter := l }
  | .macroH, l => { h with macroH := l }
  | .environment, l => { h with environment := l }

/-- Object.keys of a handler object built by the constructor's
Object.assign (lines 248-249): the four fixed keys in the declaration
order of the defaults literal (Object.assign preserves the target's key
order, and a supplied HandlerConfig has no other keys). -/
def handlerKeys : List HandlerType :=
  [.character, .delimiter, .macroH, .environment]

/-- Object.assign with the four empty defaults as target (lines 248-249):
every category becomes present, defaulting to the empty list. -/
def assignHandler (h : HandlerConfig) : HandlerMap where
  character := h.character.getD []
  delimiter := h.delimiter.getD []
  macroH := h.macroH.getD []
  environment := h.environment.getD []

/-- FallbackConfig (line 39): a partial mapping from handler categories to
fallback parse methods (opaque function values). -/
structure FallbackConfig where
  character : Option JSVal := none
  delimiter : Option JSVal := none
  macroH : Option JSVal := none
  environment : Option JSVal := none

/-- Object.assign(tgt, src) on a FallbackConfig: keys of src overwrite
same-named keys of tgt, other keys of tgt are kept. -/
def assignFallback (tgt src : FallbackConfig) : FallbackConfig where
  character := src.character.orElse fun _ => tgt.character
  delimiter := src.delimiter.orElse fun _ => tgt.delimiter
  macroH := src.macroH.orElse fun _ => tgt.macroH
  environment := src.environment.orElse fun _ => tgt.environment

/-- A string-keyed JavaScript object (for items, tags, options and nodes),
as a list of key-value pairs in key-insertion order. -/
abbrev StrMap := List (String × JSVal)

/-- Writing one key of a string-keyed object (Map.prototype.set and plain
property assignment): an existing key keeps its position and gets the new
value, a fresh key is appended. -/
def setKey {V : Type} (l : List (String × V)) (k : String) (v : V) :
    List (String × V) :=
  if l.any (fun p => p.1 = k) then
    l.map fun p => if p.1 = k then (k, v) else p
  else
    l ++ [(k, v)]

/-- Reading one key of a string-keyed object (first matching key). -/
def getKey {V : Type} : List (String × V) → String → Option V
  | [], _ => none
  | p :: rest, k => if p.1 = k then some p.2 else getKey rest k

/-- Object.assign(tgt, src) on string-keyed objects: each key of src is
written into tgt in order, overwriting same-named keys. -/
def objAssign {V : Type} (tgt src : List (String × V)) : List (String × V) :=
  src.foldl (fun acc p => setKey acc p.1 p.2) tgt

/-- Modelled from the spec: defaultOptions (util/Options.js, not among the
source files) merges option defaults so that an option name already
present in the target is left untouched and new names are added. -/
def defaultOptions (tgt src : StrMap) : StrMap :=
  src.foldl (fun acc p => if (getKey acc p.1).isSome then acc else acc ++ [p]) tgt

/-- Configuration (lines 46-252): an immutable configuration entry for one
package, in the state left by the private constructor.  The init and
config fields hold whatever JavaScript value the constructor body stored
(lines 242-247 rewrap them). -/
structure Configuration where
  name : String
  handler : HandlerMap
  fallback : FallbackConfig
  items : StrMap
  tags : StrMap
  options : StrMap
  nodes : StrMap
  preprocessors : List JSVal
  postprocessors : List JSVal
  init : JSVal
  config : JSVal
  priority : Nat

/-- The body of Configuration's private constructor (lines 229-250):
the condition this.init || !Array.isArray(this.init) decides whether init
is rewrapped as the pair [this.init, this.priority]; likewise for config;
the handler object is completed with the four empty defaults via
Object.assign (lines 248-249). -/
def configurationNew (name : String) (handler : HandlerConfig)
    (fallback : FallbackConfig) (items tags options nodes : StrMap)
    (preprocessors postprocessors : List JSVal) (init config : JSVal)
    (priority : Nat) : Configuration :=
  let init' :=
    if jsTruthy init || !jsIsArray init then JSVal.arr [init, .num priority]
    else init
  let config' :=
    if jsTruthy config || !jsIsArray config then JSVal.arr [config, .num priority]
    else config
  { name := name
    handler := assignHandler handler
    fallback := fallback
    items := items
    tags := tags
    options := options
    nodes := nodes
    preprocessors := preprocessors
    postprocessors := postprocessors
    init := init'
    config := config'
    priority := priority }

/-- The process-wide registry of ConfigurationHandler (line 257), passed
explicitly: a name-keyed map of Configuration entries. -/
abbrev Registry := List (String × Configuration)

namespace ConfigurationHandler

/-- ConfigurationHandler.set (lines 265-267): maps.set(name, map) —
overwrite by name, no validation of any kind. -/
def set (maps : Registry) (name : String) (map : Configuration) : Registry :=
  setKey maps name map

/-- ConfigurationHandler.get (lines 276-278): maps.get(name). -/
def get (maps : Registry) (name : String) : Option Configuration :=
  getKey maps name

/-- ConfigurationHandler.keys (lines 283-285). -/
def keys (maps : Registry) : List String :=
  maps.map fun p => p.1

end ConfigurationHandler

/-- The optional configuration-description argument of Configuration.create
(lines 83-95); absent members are none. -/
structure CreateConfig where
  handler : HandlerConfig := {}
  fallback : FallbackConfig := {}
  items : StrMap := []
  tags : StrMap := []
  options : StrMap := []
  nodes : StrMap := []
  preprocessors : List JSVal := []
  postprocessors : List JSVal := []
  init : Option JSVal := none
  config : Option JSVal := none
  priority : Option Nat := none

/-- Configuration.create (lines 83-112): builds an entry through the
private constructor, defaulting each absent member (x || fallback), and
registers it via ConfigurationHandler.set under the given name.  Returns
the entry and the updated registry. -/
def Configuration.create (registry : Registry) (name : String)
    (config : CreateConfig) : Configuration × Registry :=
  let configuration := configurationNew name config.handler config.fallback
    config.items config.tags config.options config.nodes
    config.preprocessors config.postprocessors
    (jsOrNull config.init) (jsOrNull config.config)
    (jsOrPriority config.priority)
  (configuration, ConfigurationHandler.set registry name configuration)

/-- An error thrown by the JavaScript runtime (invoking a value that is
not a function). -/
inductive JsError where
  | typeError : String → JsError

/-- ActiveConfiguration: the state of a ParserConfiguration whose merge
fields have all been assigned — the running parser configuration that the
merge step operates on.  initMethod and configMethod are the FunctionList
chains; FunctionList (util/FunctionList.js) is not among the source
files, so, modelled from the spec, each chain records the (item, priority)
pairs passed to add in insertion order (execution sorts by priority; only
the recorded pairs matter below).  The priority slot is a JSVal because
the source passes arbitrary values there (line 372). -/
structure ActiveConfiguration where
  initMethod : List (JSVal × JSVal) := []
  configMethod : List (JSVal × JSVal) := []
  handler : HandlerMap := {}
  fallback : FallbackConfig := {}
  items : StrMap := []
  tags : StrMap := []
  options : StrMap := []
  nodes : StrMap := []
  preprocessors : List JSVal := []
  postprocessors : List JSVal := []

/-- ParserConfiguration.append (lines 353-378) on an active configuration:
for each key of config.handler the contributed names are unshifted one at
a time onto this.handler[key]; fallback, items, tags and nodes are merged
by Object.assign; options by defaultOptions; pre/postprocessors are pushed
in order; if config.init is truthy, initMethod.add(config.init[0],
config.init[0]) is called (the source passes element 0 in both argument
positions, line 372); if config.config is truthy,
configMethod.add(config.config[0], config.config[1]) is called. -/
def ActiveConfiguration.append (A : ActiveConfiguration)
    (config : Configuration) : ActiveConfiguration :=
  { A with
    handler := handlerKeys.foldl
      (fun h key => (config.handler.get key).foldl
        (fun h' map => h'.set key (map :: h'.get key)) h)
      A.handler
    fallback := assignFallback A.fallback config.fallback
    items := objAssign A.items config.items
    tags := objAssign A.tags config.tags
    options := defaultOptions A.options config.options
    nodes := objAssign A.nodes config.nodes
    preprocessors := config.preprocessors.foldl
      (fun l pre => l ++ [pre]) A.preprocessors
    postprocessors := config.postprocessors.foldl
      (fun l post => l ++ [post]) A.postprocessors
    initMethod :=
      if jsTruthy config.init then
        A.initMethod ++ [(jsIndex config.init 0, jsIndex config.init 0)]
      else A.initMethod
    configMethod :=
      if jsTruthy config.config then
        A.configMethod ++ [(jsIndex config.config 0, jsIndex config.config 1)]
      else A.configMethod }

/-- ParserConfiguration.register (lines 387-399) on an active
configuration: this.append(config), then the call config.init(this)
(line 389), which throws a TypeError unless config.init is callable; the
steps acting on the jax (SubHandlers rebuild, factory updates, option
merging — all outside this source file) are abstracted away; finally the
call config.config(this, jax) (line 398), which likewise requires a
callable. -/
def ActiveConfiguration.register (A : ActiveConfiguration)
    (config : Configuration) : Except JsError ActiveConfiguration :=
  let A' := A.append config
  if jsIsCallable config.init then
    if jsIsCallable config.config then Except.ok A'
    else Except.error (.typeError "config.config is not a function")
  else Except.error (.typeError "config.init is not a function")

/-- One element of the packages argument of the ParserConfiguration
constructor (line 409): a name, or a name paired with an explicit
priority. -/
inductive PackageSpec where
  | str : String → PackageSpec
  | pair : String → Nat → PackageSpec

/-- The name of a package element: key itself when it is a string, else
key[0]. -/
def PackageSpec.pkgName : PackageSpec → String
  | .str s => s
  | .pair s _ => s

/-- ParserConfiguration (lines 290-446): initMethod, configMethod and
configurations are initialized at declaration; the remaining public
fields (lines 307-314) have no initializer and remain undefined (none)
until something assigns them.  configurations is a PrioritizedList
(util/PrioritizedList.js, not among the source files): modelled from the
spec, it records the (item, priority) pairs passed to add in insertion
order (iteration sorts by ascending priority, stable; only the recorded
pairs matter below). -/
structure ParserConfiguration where
  initMethod : List (JSVal × JSVal) := []
  configMethod : List (JSVal × JSVal) := []
  configurations : List (Configuration × Nat) := []
  handler : Option HandlerMap := none
  fallback : Option FallbackConfig := none
  items : Option StrMap := none
  tags : Option StrMap := none
  options : Option StrMap := none
  nodes : Option StrMap := none
  preprocessors : Option (List JSVal) := none
  postprocessors : Option (List JSVal) := none

/-- The body of one iteration of the ParserConfiguration constructor loop
(lines 411-417): look the element's name up in the registry and, when an
entry is found, add it to the configurations list with the explicit
priority when the element is a pair, else the entry's own priority; when
nothing is found the element is skipped. -/
def addPackage (registry : Registry) (acc : List (Configuration × Nat))
    (key : PackageSpec) : List (Configuration × Nat) :=
  match ConfigurationHandler.get registry key.pkgName with
  | some conf =>
    acc ++ [(conf, match key with
      | .str _ => conf.priority
      | .pair _ p => p)]
  | none => acc

/-- The ParserConfiguration constructor (lines 409-444): the loop over
packages runs addPackage for each element.  Everything after this loop in
the constructor body is commented out in the source, so no other field is
touched. -/
def parserConfigurationNew (registry : Registry)
    (packages : List PackageSpec) : ParserConfiguration :=
  { configurations := packages.foldl (addPackage registry) [] }

/-
Helper lemmas.
-/

/-- Unshifting the elements of l one at a time onto acc yields l reversed
in front of acc. -/
theorem foldl_unshift {A : Type} (l acc : List A) :
    l.foldl (fun a m => m :: a) acc = l.reverse ++ acc := by
  induction l generalizing acc with
  | nil => simp
  | cons x xs ih => simp [List.foldl, ih, List.append_assoc]

/-- Pushing the elements of l one at a time onto the end of acc appends l. -/
theorem foldl_push {A : Type} (l acc : List A) :
    l.foldl (fun a p => a ++ [p]) acc = acc ++ l := by
  induction l generalizing acc with
  | nil => simp
  | cons x xs ih => simp [List.foldl, ih]

/-- Reading a handler-map field after writing one. -/
theorem HandlerMap.get_set (h : HandlerMap) (k k' : HandlerType)
    (v : List String) :
    (h.set k v).get k' = if k' = k then v else h.get k' := by
  cases k <;> cases k' <;> simp [HandlerMap.set, HandlerMap.get]

/-- The inner unshift loop of append for one handler category: the
category itself accumulates the contributions in reverse in front of its
previous content, every other category is untouched. -/
theorem innerUnshift_get (k : HandlerType) (l : List String)
    (h : HandlerMap) (k' : HandlerType) :
    (l.foldl (fun h' map => h'.set k (map :: h'.get k)) h).get k'
      = if k' = k then l.reverse ++ h.get k else h.get k' := by
  induction l generalizing h with
  | nil => by_cases hk : k' = k <;> simp [hk]
  | cons x xs ih =>
    simp only [List.foldl]
    rw [ih]
    by_cases hk : k' = k <;>
      simp [hk, HandlerMap.get_set, List.append_assoc]

/-- Writing then reading the same key of a string-keyed object: the map
branch of setKey. -/
theorem getKey_map_set {V : Type} (k : String) (v : V) :
    ∀ l : List (String × V), l.any (fun p => p.1 = k) = true →
    getKey (l.map fun p => if p.1 = k then (k, v) else p) k = some v := by
  intro l
  induction l with
  | nil => intro h; simp at h
  | cons p rest ih =>
    intro h
    by_cases hp : p.1 = k
    · simp [getKey, hp]
    · have hr : rest.any (fun q => q.1 = k) = true := by
        simpa [hp] using h
      simpa [getKey, hp] using ih hr

/-- Writing then reading the same key of a string-keyed object: the append
branch of setKey. -/
theorem getKey_append_new {V : Type} (k : String) (v : V) :
    ∀ l : List (String × V), l.any (fun p => p.1 = k) = false →
    getKey (l ++ [(k, v)]) k = some v := by
  intro l
  induction l with
  | nil => intro _; simp [getKey]
  | cons p rest ih =>
    intro h
    simp only [List.any_cons, Bool.or_eq_false_iff] at h
    have hp : ¬ p.1 = k := by simpa using h.1
    simp [getKey, hp, ih h.2]

/-- Writing a key then reading it back yields the written value. -/
theorem getKey_setKey_same {V : Type} (l : List (String × V)) (k : String)
    (v : V) : getKey (setKey l k v) k = some v := by
  unfold setKey
  cases hc : l.any (fun p => p.1 = k) with
  | true => simpa [hc] using getKey_map_set k v l hc
  | false => simpa [hc] using getKey_append_new k v l hc

/-- Writing a key leaves every other key of the map branch unchanged. -/
theorem getKey_map_other {V : Type} (k k' : String) (v : V)
    (hkk : ¬ k' = k) :
    ∀ l : List (String × V),
    getKey (l.map fun p => if p.1 = k then (k, v) else p) k' = getKey l k' := by
  intro l
  induction l with
  | nil => rfl
  | cons p rest ih =>
    by_cases hp : p.1 = k
    · have hk2 : ¬ k = k' := fun h => hkk h.symm
      simp [getKey, hp, hk2, ih]
    · simp [getKey, hp, ih]

/-- Writing a key leaves every other key of the append branch unchanged. -/
theorem getKey_append_other {V : Type} (k k' : String) (v : V)
    (hkk : ¬ k' = k) :
    ∀ l : List (String × V), getKey (l ++ [(k, v)]) k' = getKey l k' := by
  intro l
  induction l with
  | nil =>
    have hk2 : ¬ k = k' := fun h => hkk h.symm
    simp [getKey, hk2]
  | cons p rest ih => by_cases hp : p.1 = k' <;> simp [getKey, hp, ih]

/-- Writing a key leaves every other key unchanged. -/
theorem getKey_setKey_other {V : Type} (l : List (String × V))
    (k k' : String) (v : V) (hkk : ¬ k' = k) :
    getKey (setKey l k v) k' = getKey l k' := by
  unfold setKey
  cases hc : l.any (fun p => p.1 = k) with
  | true => simpa [hc] using getKey_map_other k k' v hkk l
  | false => simpa [hc] using getKey_append_other k k' v hkk l

/-- The private constructor always rewraps init as the pair
[init, priority]: the guard on line 242 is satisfied by every value
(a truthy value passes the first disjunct; a falsy one is not an array,
since arrays are truthy, and passes the second). -/
theorem configurationNew_init_eq (name : String) (handler : HandlerConfig)
    (fallback : FallbackConfig) (items tags options nodes : StrMap)
    (preprocessors postprocessors : List JSVal) (init config : JSVal)
    (priority : Nat) :
    (configurationNew name handler fallback items tags options nodes
      preprocessors postprocessors init config priority).init
      = JSVal.arr [init, .num priority] := by
  cases init <;> simp [configurationNew, jsTruthy, jsIsArray]

/-- The private constructor always rewraps config as the pair
[config, priority], for the same reason as init. -/
theorem configurationNew_config_eq (name : String) (handler : HandlerConfig)
    (fallback : FallbackConfig) (items tags options nodes : StrMap)
    (preprocessors postprocessors : List JSVal) (init config : JSVal)
    (priority : Nat) :
    (configurationNew name handler fallback items tags options nodes
      preprocessors postprocessors init config priority).config
      = JSVal.arr [config, .num priority] := by
  cases config <;> simp [configurationNew, jsTruthy, jsIsArray]

/-- The constructor loop processes exactly the package names found in the
registry: elements whose lookup fails leave the accumulator unchanged. -/
theorem foldl_addPackage_filter (registry : Registry)
    (packages : List PackageSpec) :
    ∀ acc, packages.foldl (addPackage registry) acc
      = (packages.filter fun key =>
          (ConfigurationHandler.get registry key.pkgName).isSome).foldl
          (addPackage registry) acc := by
  induction packages with
  | nil => intro acc; rfl
  | cons key rest ih =>
    intro acc
    by_cases h : (ConfigurationHandler.get registry key.pkgName).isSome = true
    · simp [List.filter_cons, h, List.foldl, ih]
    · have hn : ConfigurationHandler.get registry key.pkgName = none := by
        cases hval : ConfigurationHandler.get registry key.pkgName with
        | none => rfl
        | some c => rw [hval] at h; simp at h
      simp [List.filter_cons, h, List.foldl, addPackage, hn, ih]

/-
Concrete sample values used by the closed theorems below.
-/

/-- An active configuration whose macroH handler list already holds one
name. -/
def cexActive : ActiveConfiguration := { handler := { macroH := ["prev"] } }

/-- An entry contributing the two symbol-map names x and y, in that order,
to the macroH category. -/
def cexEntry : Configuration :=
  (Configuration.create [] "e" { handler := { macroH := some ["x", "y"] } }).1

/-- An entry created with no hooks at all. -/
def hookFreeEntry : Configuration := (Configuration.create [] "plain" {}).1

/-- An entry created with an init hook and an explicit priority of 3. -/
def hookEntry : Configuration :=
  (Configuration.create [] "hooked"
    { init := some (.fn "f"), priority := some 3 }).1

/-- A registry holding one entry named pkg that contributes the symbol-map
name x to the macroH category and carries an init hook. -/
def pkgCreate : Configuration × Registry :=
  Configuration.create [] "pkg"
    { handler := { macroH := some ["x"] }, init := some (.fn "f") }

/-- The entry of pkgCreate. -/
def pkgEntry : Configuration := pkgCreate.1

/-- The registry of pkgCreate. -/
def pkgRegistry : Registry := pkgCreate.2

/-- A plain entry for registry theorems. -/
def sampleEntry : Configuration := (Configuration.create [] "sample" {}).1

/-- The malformed configuration description of the spec's example: an init
hook whose pair holds no callable. -/
def badHookCfg : CreateConfig := { init := some (.arr [.null, .num 3]) }

/-
Claim theorems.
-/

/-- C1 (counterexample): appending an entry whose macroH contribution is
[x, y] to an active configuration whose macroH list is [prev] yields
[y, x, prev], not the claimed [x, y, prev]: the individual unshift calls
reverse the relative order of the entry's own contributions. -/
theorem append_contribution_order_cex :
    (cexActive.append cexEntry).handler.macroH = ["y", "x", "prev"]
    ∧ (["y", "x", "prev"] : List String) ≠ ["x", "y", "prev"] :=
  ⟨rfl, by decide⟩

/-- C1 (amended): for every active configuration and entry, the append
step prepends the entry's contributed handler-map names for each category
one unshift at a time, so the result for a category is the entry's
contribution reversed, followed by the previous names: a contribution
[x, y] yields [y, x, ...previous]. -/
theorem append_prepends_reversed (A : ActiveConfiguration)
    (config : Configuration) (key : HandlerType) :
    (A.append config).handler.get key
      = (config.handler.get key).reverse ++ A.handler.get key := by
  cases key <;>
    simp [ActiveConfiguration.append, handlerKeys, List.foldl,
      innerUnshift_get, foldl_unshift]

/-- C2 (code bug): constructing a ParserConfiguration from a package list
only fills the configurations priority list; the fold of the found
entries into the active state and the execution of the init chain are
commented out in the source, so the handler and processor fields stay
undefined and no init hook is recorded or run, although the lookup did
find the entry. -/
theorem constructor_leaves_state_unmerged :
    (parserConfigurationNew pkgRegistry [PackageSpec.str "pkg"]).handler = none
    ∧ (parserConfigurationNew pkgRegistry [PackageSpec.str "pkg"]).preprocessors
        = none
    ∧ (parserConfigurationNew pkgRegistry [PackageSpec.str "pkg"]).initMethod
        = []
    ∧ (parserConfigurationNew pkgRegistry [PackageSpec.str "pkg"]).configurations
        = [(pkgEntry, 5)] :=
  ⟨rfl, rfl, rfl, rfl⟩

/-- C3 (code bug): for every active configuration and every entry built by
the Configuration constructor, register throws a TypeError at the call
config.init(this): the constructor has rewrapped init as the array
[init, priority], which is not callable, so no hook is ever invoked. -/
theorem register_throws_on_init_call (A : ActiveConfiguration)
    (name : String) (handler : HandlerConfig) (fallback : FallbackConfig)
    (items tags options nodes : StrMap)
    (preprocessors postprocessors : List JSVal) (init config : JSVal)
    (priority : Nat) :
    A.register (configurationNew name handler fallback items tags options
        nodes preprocessors postprocessors init config priority)
      = Except.error (JsError.typeError "config.init is not a function") := by
  simp [ActiveConfiguration.register, configurationNew_init_eq, jsIsCallable]

/-- C4 (code bug): appending an entry created without any hooks still adds
a pair to both chains (the always-true rewrap makes init and config truthy
arrays), and for an entry with an init hook at explicit priority 3 the
init chain receives the callable in both the item and the priority
positions (the source passes config.init[0] twice), never the priority 3
the claim requires. -/
theorem append_hook_registration_cex :
    (ActiveConfiguration.append {} hookFreeEntry).initMethod
        = [(JSVal.null, JSVal.null)]
    ∧ (ActiveConfiguration.append {} hookFreeEntry).configMethod
        = [(JSVal.null, JSVal.num 5)]
    ∧ (ActiveConfiguration.append {} hookEntry).initMethod
        = [(JSVal.fn "f", JSVal.fn "f")]
    ∧ (ActiveConfiguration.append {} hookEntry).configMethod
        = [(JSVal.null, JSVal.num 3)] :=
  ⟨rfl, rfl, rfl, rfl⟩

/-- C5 (counterexample): entry construction from a description whose init
hook holds no callable does not fail: it produces an entry named bad and
registers it in the registry. -/
theorem create_accepts_malformed_hook_cex :
    (Configuration.create [] "bad" badHookCfg).1.name = "bad"
    ∧ ConfigurationHandler.get (Configuration.create [] "bad" badHookCfg).2
        "bad" = some (Configuration.create [] "bad" badHookCfg).1 :=
  ⟨rfl, rfl⟩

/-- C5 (amended): entry construction performs no structural validation at
all: for every configuration description, create produces an entry with
the given name, registers it under that name, and stores whatever init
value was supplied — callable or not — wrapped with the entry's priority;
no error is raised at construction or merge time (create is total). -/
theorem create_never_validates (registry : Registry) (name : String)
    (config : CreateConfig) :
    (Configuration.create registry name config).1.name = name
    ∧ ConfigurationHandler.get (Configuration.create registry name config).2
        name = some (Configuration.create registry name config).1
    ∧ (Configuration.create registry name config).1.init
        = JSVal.arr [jsOrNull config.init,
            .num (jsOrPriority config.priority)] := by
  refine ⟨rfl, ?_, ?_⟩
  · exact getKey_setKey_same registry name _
  · exact configurationNew_init_eq name config.handler config.fallback
      config.items config.tags config.options config.nodes
      config.preprocessors config.postprocessors (jsOrNull config.init)
      (jsOrNull config.config) (jsOrPriority config.priority)

/-- C6: every entry produced by create has all four handler categories
present in its handler mapping, each equal to the caller's contribution
when one was supplied and to the empty sequence otherwise. -/
theorem create_handler_categories_total (registry : Registry)
    (name : String) (config : CreateConfig) (key : HandlerType) :
    (Configuration.create registry name config).1.handler.get key
      = (config.handler.get key).getD [] := by
  cases key <;> rfl

/-- C7: the append step pushes each entry's preprocessors and
postprocessors onto the end of the existing sequences in the order they
appear within the entry, so merging two entries installs first the first
entry's processors, then the second's. -/
theorem append_processors_in_order (A : ActiveConfiguration)
    (c1 c2 : Configuration) :
    ((A.append c1).append c2).preprocessors
        = A.preprocessors ++ c1.preprocessors ++ c2.preprocessors
    ∧ ((A.append c1).append c2).postprocessors
        = A.postprocessors ++ c1.postprocessors ++ c2.postprocessors := by
  constructor <;>
    simp [ActiveConfiguration.append, foldl_push, List.append_assoc]

/-- C8: names not found in the registry are silently skipped by the
ParserConfiguration constructor: the construction never fails, and its
result is exactly the result of constructing from the package list with
the unknown names removed. -/
theorem constructor_skips_unknown_names (registry : Registry)
    (packages : List PackageSpec) :
    parserConfigurationNew registry packages
      = parserConfigurationNew registry (packages.filter fun key =>
          (ConfigurationHandler.get registry key.pkgName).isSome) := by
  unfold parserConfigurationNew
  rw [foldl_addPackage_filter]

/-- C9 (counterexample): registering an entry under the empty name is not
refused: the entry is stored and found again under the empty name. -/
theorem set_accepts_empty_name_cex :
    ConfigurationHandler.get (ConfigurationHandler.set [] "" sampleEntry) ""
      = some sampleEntry :=
  rfl

/-- C9 (amended): registration performs no validation at all — any name,
the empty string included, is accepted: the entry is stored under the
given name, overwriting a previously registered entry of that name, and
entries under every other name are untouched. -/
theorem set_overwrites_without_validation (maps : Registry) (name : String)
    (entry : Configuration) :
    ConfigurationHandler.get (ConfigurationHandler.set maps name entry) name
        = some entry
    ∧ ∀ other : String, other ≠ name →
        ConfigurationHandler.get (ConfigurationHandler.set maps name entry)
          other = ConfigurationHandler.get maps other := by
  constructor
  · exact getKey_setKey_same maps name entry
  · intro other hne
    exact getKey_setKey_other maps name other entry hne

/-- C9 (witness): the amended registration theorem applied to the empty
registry, the empty name and a concrete entry, read back at another
name. -/
theorem set_overwrites_without_validation_witness :
    ConfigurationHandler.get (ConfigurationHandler.set [] "" sampleEntry)
      "other" = ConfigurationHandler.get ([] : Registry) "other" :=
  (set_overwrites_without_validation [] "" sampleEntry).2 "other" (by decide)

/-- C10: a supplied priority of 0 — the falsy number — gives the created
entry the default priority 5, exactly as when no priority is supplied, and
no entry produced by create ever carries priority 0. -/
theorem create_priority_never_zero (registry : Registry) (name : String)
    (config : CreateConfig) :
    ((config.priority = some 0 ∨ config.priority = none) →
      (Configuration.create registry name config).1.priority = 5)
    ∧ (Configuration.create registry name config).1.priority ≠ 0 := by
  constructor
  · rintro (h | h) <;>
      simp [Configuration.create, configurationNew, jsOrPriority, h]
  · show jsOrPriority config.priority ≠ 0
    cases h : config.priority with
    | none => simp [jsOrPriority]
    | some n =>
      by_cases hn : n = 0 <;> simp [jsOrPriority, hn]

/-- C10 (witness): the priority theorem applied to a create call whose
supplied priority is 0. -/
theorem create_priority_never_zero_witness :
    (Configuration.create [] "p" { priority := some 0 }).1.priority = 5
    ∧ (Configuration.create [] "p" { priority := some 0 }).1.priority ≠ 0 :=
  ⟨(create_priority_never_zero [] "p" { priority := some 0 }).1 (Or.inl rfl),
   (create_priority_never_zero [] "p" { priority := some 0 }).2⟩

end MathJax
